import Mathlib

/-!
# libgit2 `src/thread-utils.h`: atomic counters, pointer compare-and-swap, thread stubs

A shallow embedding of `thread-utils.h`.  The header defines every operation twice, once
under `#ifdef GIT_THREADS` and once in the `#else` branch; the two copies live in the
namespaces `Threads` and `NoThreads`.  Inside the `GIT_THREADS` branch each function body is
again selected by `#if defined(GIT_WIN32) ... #elif defined(__GNUC__)`; that choice is the
`Target` argument.

Conventions of the embedding

* A memory cell is passed in and handed back: a C function `T f(cell *p, args)` becomes
  `f : Cell → args → T × Cell` (returned value first, cell content afterwards).
* `int`, `long` (32 bits on Win32) and `int32_t` are integers reduced by `wrap32`,
  `int64_t` and `__int64` by `wrap64` (two's complement wrap-around).
* A `void *` is its address, a natural number; pointers are compared by address.
* The compiler and OS primitives (`__sync_*`, `Interlocked*`) are not part of the
  repository; they are given their documented sequential meaning.
-/

namespace ThreadUtils

/-! ## Machine integers -/

/-- Reduction of an integer to the 32-bit two's complement range `[-2^31, 2^31)`. -/
def wrap32 (x : Int) : Int := (x + 2147483648) % 4294967296 - 2147483648

/-- Reduction of an integer to the 64-bit two's complement range `[-2^63, 2^63)`. -/
def wrap64 (x : Int) : Int :=
  (x + 9223372036854775808) % 18446744073709551616 - 9223372036854775808

/-- Operand widths at which the type-generic primitives are used in the header. -/
inductive Width where
  | w32
  | w64
deriving DecidableEq, Repr

/-- Wrap-around at the given operand width. -/
def Width.wrap : Width → Int → Int
  | .w32 => wrap32
  | .w64 => wrap64

/-- A `void *` value: the address it holds. -/
abbrev Ptr := Nat

/-! ## Data model (lines 11-39) -/

/-- The struct `git_atomic`: one `volatile int val` (`volatile long val` on Win32). -/
structure git_atomic where
  val : Int
deriving DecidableEq, Repr

/-- The struct `git_atomic64`: one `int64_t val` (`__int64 val` on Win32). -/
structure git_atomic64 where
  val : Int
deriving DecidableEq, Repr

/-- Body `a->val = val;` of `git_atomic_set` (lines 41-44), common to every build. -/
def git_atomic_set (a : git_atomic) (val : Int) : git_atomic :=
  { a with val := val }

/-- The platform branch taken inside the `GIT_THREADS` function bodies. -/
inductive Target where
  | GIT_WIN32
  | GNUC
deriving DecidableEq, Repr

/-! ## Primitives of the compiler and of the OS

Each takes the content of the addressed cell and returns the value of the call together with
the new content of the cell. -/

/-- GCC builtin `__sync_add_and_fetch(ptr, value)`: `{ *ptr += value; return *ptr; }`. -/
def __sync_add_and_fetch (w : Width) (cell value : Int) : Int × Int :=
  (w.wrap (cell + value), w.wrap (cell + value))

/-- GCC builtin `__sync_sub_and_fetch(ptr, value)`: `{ *ptr -= value; return *ptr; }`. -/
def __sync_sub_and_fetch (w : Width) (cell value : Int) : Int × Int :=
  (w.wrap (cell - value), w.wrap (cell - value))

/-- GCC builtin `__sync_val_compare_and_swap(ptr, oldval, newval)`: if the current value of
`*ptr` is `oldval`, write `newval` into `*ptr`; return the content of `*ptr` before the
operation. -/
def __sync_val_compare_and_swap (cell oldval newval : Ptr) : Ptr × Ptr :=
  (cell, if cell = oldval then newval else cell)

/-- Win32 `InterlockedIncrement(Addend)`: increments the variable and returns the resulting
incremented value. -/
def InterlockedIncrement (cell : Int) : Int × Int :=
  (wrap32 (cell + 1), wrap32 (cell + 1))

/-- Win32 `InterlockedDecrement(Addend)`: decrements the variable and returns the resulting
decremented value. -/
def InterlockedDecrement (cell : Int) : Int × Int :=
  (wrap32 (cell - 1), wrap32 (cell - 1))

/-- Win32 `InterlockedExchangeAdd(Addend, Value)`: adds `Value` to the variable and returns
the initial value of the variable. -/
def InterlockedExchangeAdd (cell value : Int) : Int × Int :=
  (cell, wrap32 (cell + value))

/-- Win32 `InterlockedExchangeAdd64(Addend, Value)`: adds `Value` to the 64-bit variable and
returns the initial value of the variable. -/
def InterlockedExchangeAdd64 (cell value : Int) : Int × Int :=
  (cell, wrap64 (cell + value))

/-- Win32 `InterlockedCompareExchangePointer(Destination, Exchange, Comperand)`: if the
destination equals `Comperand`, store `Exchange` in it; return the initial value of the
destination. -/
def InterlockedCompareExchangePointer (cell exchange comperand : Ptr) : Ptr × Ptr :=
  (cell, if cell = comperand then exchange else cell)

/-! ## `#ifdef GIT_THREADS` (lines 46-129) -/

namespace Threads

/-- Function `git_atomic_inc`, lines 69-78. -/
def git_atomic_inc (t : Target) (a : git_atomic) : Int × git_atomic :=
  match t with
  | .GIT_WIN32 =>
    let r := InterlockedIncrement a.val
    (r.1, { a with val := r.2 })
  | .GNUC =>
    let r := __sync_add_and_fetch .w32 a.val 1
    (r.1, { a with val := r.2 })

/-- Function `git_atomic_add`, lines 80-89. -/
def git_atomic_add (t : Target) (a : git_atomic) (addend : Int) : Int × git_atomic :=
  match t with
  | .GIT_WIN32 =>
    let r := InterlockedExchangeAdd a.val addend
    (r.1, { a with val := r.2 })
  | .GNUC =>
    let r := __sync_add_and_fetch .w32 a.val addend
    (r.1, { a with val := r.2 })

/-- Function `git_atomic_dec`, lines 91-100. -/
def git_atomic_dec (t : Target) (a : git_atomic) : Int × git_atomic :=
  match t with
  | .GIT_WIN32 =>
    let r := InterlockedDecrement a.val
    (r.1, { a with val := r.2 })
  | .GNUC =>
    let r := __sync_sub_and_fetch .w32 a.val 1
    (r.1, { a with val := r.2 })

/-- Function `git___compare_and_swap`, lines 102-114: the primitive yields `foundval`, and
the function returns `(foundval == oldval) ? oldval : newval`. -/
def git___compare_and_swap (t : Target) (ptr oldval newval : Ptr) : Ptr × Ptr :=
  let r :=
    match t with
    | .GIT_WIN32 => InterlockedCompareExchangePointer ptr newval oldval
    | .GNUC => __sync_val_compare_and_swap ptr oldval newval
  let foundval := r.1
  (if foundval = oldval then oldval else newval, r.2)

/-- Function `git_atomic64_add`, lines 118-127 (`GIT_ARCH_64` only). -/
def git_atomic64_add (t : Target) (a : git_atomic64) (addend : Int) : Int × git_atomic64 :=
  match t with
  | .GIT_WIN32 =>
    let r := InterlockedExchangeAdd64 a.val addend
    (r.1, { a with val := r.2 })
  | .GNUC =>
    let r := __sync_add_and_fetch .w64 a.val addend
    (r.1, { a with val := r.2 })

/-- Macro `git__compare_and_swap(P,O,N)`, lines 195-196. -/
def git__compare_and_swap (t : Target) (P O N : Ptr) : Ptr × Ptr :=
  git___compare_and_swap t P O N

/-- Macro `git__swap(ptr, val)`, line 198: `git__compare_and_swap(&ptr, ptr, val)`.  The
second argument is the content read from the slot itself. -/
def git__swap (t : Target) (ptr val : Ptr) : Ptr × Ptr :=
  git__compare_and_swap t ptr ptr val

end Threads

/-! ## `#else` branch: threads disabled (lines 131-188) -/

namespace NoThreads

/-- Function `git_atomic_inc`, lines 154-157: `return ++a->val;`.  The `int` arithmetic wraps
around, as the machine addition does that the read-add-write of the `volatile` field
compiles to. -/
def git_atomic_inc (a : git_atomic) : Int × git_atomic :=
  let v := wrap32 (a.val + 1)
  (v, { a with val := v })

/-- Function `git_atomic_add`, lines 159-163: `a->val += addend; return a->val;`. -/
def git_atomic_add (a : git_atomic) (addend : Int) : Int × git_atomic :=
  let a1 : git_atomic := { a with val := wrap32 (a.val + addend) }
  (a1.val, a1)

/-- Function `git_atomic_dec`, lines 165-168: `return --a->val;`. -/
def git_atomic_dec (a : git_atomic) : Int × git_atomic :=
  let v := wrap32 (a.val - 1)
  (v, { a with val := v })

/-- Function `git___compare_and_swap`, lines 170-178:
`if (*ptr == oldval) *ptr = newval; else oldval = newval; return oldval;`. -/
def git___compare_and_swap (ptr oldval newval : Ptr) : Ptr × Ptr :=
  if ptr = oldval then
    (oldval, newval)
  else
    (newval, ptr)

/-- Function `git_atomic64_add`, lines 182-186: `a->val += addend; return a->val;`. -/
def git_atomic64_add (a : git_atomic64) (addend : Int) : Int × git_atomic64 :=
  let a1 : git_atomic64 := { a with val := wrap64 (a.val + addend) }
  (a1.val, a1)

/-- Macro `git__compare_and_swap(P,O,N)`, lines 195-196. -/
def git__compare_and_swap (P O N : Ptr) : Ptr × Ptr :=
  git___compare_and_swap P O N

/-- Macro `git__swap(ptr, val)`, line 198: `git__compare_and_swap(&ptr, ptr, val)`.  The
second argument is the content read from the slot itself. -/
def git__swap (ptr val : Ptr) : Ptr × Ptr :=
  git__compare_and_swap ptr ptr val

/-! ### Stand-ins for threads, mutexes and condition variables (lines 133-152)

With threads disabled these are function-like macros whose replacement text mentions none of
their parameters: the argument expressions are dropped unevaluated. -/

/-- Result of evaluating a C expression: no value (type `void`) or an `int`. -/
inductive CValue where
  | void
  | int (n : Int)
deriving DecidableEq, Repr

/-- A C expression over a program state `σ`: evaluation gives a value and the state after its
side effects. -/
abbrev CExpr (σ : Type) := σ → CValue × σ

/-- Macro `git_thread_create(thread, attr, start_routine, arg)`, line 134: `(void)0`.
The entry point `start_routine` is given as the change of the program state that running it
would make. -/
def git_thread_create {σ : Type} (_thread _attr : CExpr σ) (_start_routine : σ → σ)
    (_arg : CExpr σ) : CExpr σ :=
  fun s => (.void, s)

/-- Macro `git_mutex_init(a)`, line 141: `0`. -/
def git_mutex_init {σ : Type} (_a : CExpr σ) : CExpr σ :=
  fun s => (.int 0, s)

/-- Macro `git_mutex_lock(a)`, line 142: `0`. -/
def git_mutex_lock {σ : Type} (_a : CExpr σ) : CExpr σ :=
  fun s => (.int 0, s)

/-- Macro `git_mutex_unlock(a)`, line 143: `(void)0`. -/
def git_mutex_unlock {σ : Type} (_a : CExpr σ) : CExpr σ :=
  fun s => (.void, s)

/-- Macro `git_mutex_free(a)`, line 144: `(void)0`. -/
def git_mutex_free {σ : Type} (_a : CExpr σ) : CExpr σ :=
  fun s => (.void, s)

/-- Macro `git_cond_init(c, a)`, line 148: `(void)0`. -/
def git_cond_init {σ : Type} (_c _a : CExpr σ) : CExpr σ :=
  fun s => (.void, s)

/-- Macro `git_cond_free(c)`, line 149: `(void)0`. -/
def git_cond_free {σ : Type} (_c : CExpr σ) : CExpr σ :=
  fun s => (.void, s)

/-- Macro `git_cond_wait(c, l)`, line 150: `(void)0`. -/
def git_cond_wait {σ : Type} (_c _l : CExpr σ) : CExpr σ :=
  fun s => (.void, s)

/-- Macro `git_cond_signal(c)`, line 151: `(void)0`. -/
def git_cond_signal {σ : Type} (_c : CExpr σ) : CExpr σ :=
  fun s => (.void, s)

/-- Macro `git_cond_broadcast(c)`, line 152: `(void)0`. -/
def git_cond_broadcast {σ : Type} (_c : CExpr σ) : CExpr σ :=
  fun s => (.void, s)

end NoThreads

/-! ## Concurrent callers of `git_atomic_inc`

In the `GIT_THREADS` build a call of `git_atomic_inc` is a single call of an atomic
read-modify-write primitive, so a concurrent execution is a sequence of whole calls.  A
schedule lists, call by call, the thread that makes the next call. -/

namespace Threads

/-- Runs the calls of `git_atomic_inc` on the shared counter in the order of the schedule;
gives the final counter and, call by call, the calling thread with the value it got back. -/
def interleave (t : Target) : git_atomic → List Nat → git_atomic × List (Nat × Int)
  | a, [] => (a, [])
  | a, tid :: rest =>
    let r := git_atomic_inc t a
    let k := interleave t r.2 rest
    (k.1, (tid, r.1) :: k.2)

/-- The schedule is an interleaving of `N` threads (numbered `0 .. N-1`) making `M` calls
each. -/
def IsInterleaving (N M : Nat) (sched : List Nat) : Prop :=
  (∀ tid ∈ sched, tid < N) ∧ (∀ tid < N, sched.count tid = M)

instance (N M : Nat) (sched : List Nat) : Decidable (IsInterleaving N M sched) := by
  unfold IsInterleaving
  infer_instance

end Threads

/-! ## Wrap-around arithmetic -/

/-- The result of `wrap32` is a 32-bit two's complement value. -/
theorem wrap32_range (x : Int) : -2147483648 ≤ wrap32 x ∧ wrap32 x < 2147483648 := by
  unfold wrap32
  omega

/-- A value already in the 32-bit range is left as it is. -/
theorem wrap32_eq_self (x : Int) (lo : -2147483648 ≤ x) (hi : x < 2147483648) :
    wrap32 x = x := by
  unfold wrap32
  omega

/-- The result of `wrap32` differs from its argument by a multiple of `2^32`. -/
theorem wrap32_congr (x : Int) : (wrap32 x - x) % 4294967296 = 0 := by
  unfold wrap32
  omega

/-- The result of `wrap64` is a 64-bit two's complement value. -/
theorem wrap64_range (x : Int) :
    -9223372036854775808 ≤ wrap64 x ∧ wrap64 x < 9223372036854775808 := by
  unfold wrap64
  omega

/-- A value already in the 64-bit range is left as it is. -/
theorem wrap64_eq_self (x : Int) (lo : -9223372036854775808 ≤ x)
    (hi : x < 9223372036854775808) : wrap64 x = x := by
  unfold wrap64
  omega

/-- The result of `wrap64` differs from its argument by a multiple of `2^64`. -/
theorem wrap64_congr (x : Int) : (wrap64 x - x) % 18446744073709551616 = 0 := by
  unfold wrap64
  omega

/-! ## What each function computes -/

/-- Both platform bodies of the threads-enabled `git_atomic_inc` compute the same pair. -/
theorem threads_inc_eq (t : Target) (a : git_atomic) :
    Threads.git_atomic_inc t a = (wrap32 (a.val + 1), ⟨wrap32 (a.val + 1)⟩) := by
  cases t <;> rfl

/-- Both platform bodies of the threads-enabled `git_atomic_dec` compute the same pair. -/
theorem threads_dec_eq (t : Target) (a : git_atomic) :
    Threads.git_atomic_dec t a = (wrap32 (a.val - 1), ⟨wrap32 (a.val - 1)⟩) := by
  cases t <;> rfl

/-- Both platform bodies of the threads-enabled `git___compare_and_swap`, by cases on whether
the slot holds `o`. -/
theorem threads_cas_eq (t : Target) (s o n : Ptr) :
    Threads.git___compare_and_swap t s o n = if s = o then (o, n) else (n, s) := by
  cases t <;>
    simp only [Threads.git___compare_and_swap, InterlockedCompareExchangePointer,
      __sync_val_compare_and_swap] <;>
    split <;> rfl

/-- The threads-disabled `git___compare_and_swap`, by cases on whether the slot holds `o`. -/
theorem nothreads_cas_eq (s o n : Ptr) :
    NoThreads.git___compare_and_swap s o n = if s = o then (o, n) else (n, s) := rfl

/-! ## Compare-and-swap and swap -/

/-- C1: in every build, `git___compare_and_swap` on a slot holding `s` stores `newValue` and
returns `expectedOld` when `s = expectedOld`, and otherwise leaves `s` in the slot and
returns `newValue`. -/
theorem compare_and_swap_contract (t : Target) (s expectedOld newValue : Ptr) :
    Threads.git___compare_and_swap t s expectedOld newValue
        = (if s = expectedOld then (expectedOld, newValue) else (newValue, s)) ∧
      NoThreads.git___compare_and_swap s expectedOld newValue
        = (if s = expectedOld then (expectedOld, newValue) else (newValue, s)) :=
  ⟨threads_cas_eq t s expectedOld newValue,
    nothreads_cas_eq s expectedOld newValue⟩

/-- C5: in every build, `git__swap` on a slot holding `s` returns `s` and leaves `v` in the
slot. -/
theorem swap_returns_previous (t : Target) (s v : Ptr) :
    Threads.git__swap t s v = (s, v) ∧ NoThreads.git__swap s v = (s, v) := by
  constructor
  · simp [Threads.git__swap, Threads.git__compare_and_swap, threads_cas_eq]
  · simp [NoThreads.git__swap, NoThreads.git__compare_and_swap,
      nothreads_cas_eq]

/-- C6, as stated, fails: with the slot holding 1, `expectedOld = 2` and `newValue = 2` the
swap does not take place (the slot keeps 1), yet the call returns 2, which is
`expectedOld`. -/
theorem compare_and_swap_return_ambiguous :
    ¬ ((NoThreads.git___compare_and_swap 1 2 2).1 = 2 ↔ (1 : Ptr) = 2) ∧
      ¬ ((Threads.git___compare_and_swap .GNUC 1 2 2).1 = 2 ↔ (1 : Ptr) = 2) ∧
      ¬ ((Threads.git___compare_and_swap .GIT_WIN32 1 2 2).1 = 2 ↔ (1 : Ptr) = 2) ∧
      (NoThreads.git___compare_and_swap 1 2 2).2 = 1 := by
  decide

/-- C6, amended: when `newValue` differs from `expectedOld`, in every build the value
returned by `git___compare_and_swap` equals `expectedOld` exactly when the slot held
`expectedOld` before the call. -/
theorem compare_and_swap_detects_success (t : Target) (s expectedOld newValue : Ptr)
    (hne : newValue ≠ expectedOld) :
    ((Threads.git___compare_and_swap t s expectedOld newValue).1 = expectedOld
        ↔ s = expectedOld) ∧
      ((NoThreads.git___compare_and_swap s expectedOld newValue).1 = expectedOld
        ↔ s = expectedOld) := by
  rw [threads_cas_eq, nothreads_cas_eq]
  by_cases h : s = expectedOld <;> simp [h, hne]

/-- The amended success test at a slot holding 1 with `expectedOld = 2`, `newValue = 3`. -/
theorem compare_and_swap_detects_success_witness :
    ((Threads.git___compare_and_swap .GNUC 1 2 3).1 = 2 ↔ (1 : Ptr) = 2) ∧
      ((NoThreads.git___compare_and_swap 1 2 3).1 = 2 ↔ (1 : Ptr) = 2) :=
  compare_and_swap_detects_success .GNUC 1 2 3 (by decide)

/-- C7, as stated, fails: with the slot holding 1, `expectedOld = 2` and `newValue = 3` the
call returns 3, not the 1 that the slot held. -/
theorem compare_and_swap_not_prior_value :
    (NoThreads.git___compare_and_swap 1 2 3).1 ≠ 1 ∧
      (Threads.git___compare_and_swap .GNUC 1 2 3).1 ≠ 1 ∧
      (Threads.git___compare_and_swap .GIT_WIN32 1 2 3).1 ≠ 1 := by
  decide

/-- C7, amended: in every build `git___compare_and_swap` returns `s`, the value the slot
held before the attempt, when the swap takes place (`s = expectedOld`), and returns
`newValue` when it does not. -/
theorem compare_and_swap_return_value (t : Target) (s expectedOld newValue : Ptr) :
    (Threads.git___compare_and_swap t s expectedOld newValue).1
        = (if s = expectedOld then s else newValue) ∧
      (NoThreads.git___compare_and_swap s expectedOld newValue).1
        = (if s = expectedOld then s else newValue) := by
  rw [threads_cas_eq, nothreads_cas_eq]
  by_cases h : s = expectedOld <;> simp [h]

/-! ## Atomic counters -/

/-- C3: in every build `git_atomic_inc` returns the counter value plus one, wrapped to 32
bits, and leaves exactly that value in the counter; right after `git_atomic_set(a, v)` it
returns `v + 1` wrapped to 32 bits. -/
theorem git_atomic_inc_post_increment (t : Target) (a : git_atomic) (v : Int) :
    Threads.git_atomic_inc t a = (wrap32 (a.val + 1), ⟨wrap32 (a.val + 1)⟩) ∧
      NoThreads.git_atomic_inc a = (wrap32 (a.val + 1), ⟨wrap32 (a.val + 1)⟩) ∧
      (Threads.git_atomic_inc t (git_atomic_set a v)).1 = wrap32 (v + 1) ∧
      (NoThreads.git_atomic_inc (git_atomic_set a v)).1 = wrap32 (v + 1) := by
  refine ⟨threads_inc_eq t a, rfl, ?_, rfl⟩
  rw [threads_inc_eq]
  rfl

/-- C4: in every build `git_atomic_dec` returns the counter value minus one, wrapped to 32
bits, and leaves exactly that value in the counter. -/
theorem git_atomic_dec_post_decrement (t : Target) (a : git_atomic) :
    Threads.git_atomic_dec t a = (wrap32 (a.val - 1), ⟨wrap32 (a.val - 1)⟩) ∧
      NoThreads.git_atomic_dec a = (wrap32 (a.val - 1), ⟨wrap32 (a.val - 1)⟩) :=
  ⟨threads_dec_eq t a, rfl⟩

/-- C2 holds for the threads-disabled and the GCC bodies of `git_atomic_add` and
`git_atomic64_add` (they return the sum and store it) and fails for the Win32 bodies:
`InterlockedExchangeAdd` and `InterlockedExchangeAdd64` hand back the value before the
addition, so with the counter at 5 and addend 3 the Win32 call returns 5, not 8. -/
theorem git_atomic_add_win32_returns_pre_add :
    (∀ (a : git_atomic) (d : Int),
        NoThreads.git_atomic_add a d = (wrap32 (a.val + d), ⟨wrap32 (a.val + d)⟩) ∧
        Threads.git_atomic_add .GNUC a d = (wrap32 (a.val + d), ⟨wrap32 (a.val + d)⟩) ∧
        Threads.git_atomic_add .GIT_WIN32 a d = (a.val, ⟨wrap32 (a.val + d)⟩)) ∧
      (∀ (a : git_atomic64) (d : Int),
        NoThreads.git_atomic64_add a d = (wrap64 (a.val + d), ⟨wrap64 (a.val + d)⟩) ∧
        Threads.git_atomic64_add .GNUC a d = (wrap64 (a.val + d), ⟨wrap64 (a.val + d)⟩) ∧
        Threads.git_atomic64_add .GIT_WIN32 a d = (a.val, ⟨wrap64 (a.val + d)⟩)) ∧
      Threads.git_atomic_add .GIT_WIN32 ⟨5⟩ 3 = (5, ⟨8⟩) ∧
      Threads.git_atomic64_add .GIT_WIN32 ⟨5⟩ 3 = (5, ⟨8⟩) ∧
      wrap32 (5 + 3) = 8 ∧ wrap64 (5 + 3) = 8 :=
  ⟨fun _ _ => ⟨rfl, rfl, rfl⟩, fun _ _ => ⟨rfl, rfl, rfl⟩, by decide, by decide, by decide,
    by decide⟩

/-- C8 holds for `git_atomic_inc`, `git_atomic_dec`, `git___compare_and_swap` on both
targets and for `git_atomic_add`, `git_atomic64_add` on GCC: the threads-disabled body gives
the same return value and cell content.  It fails for the Win32 bodies of `git_atomic_add`
and `git_atomic64_add`: with the counter at 5 and addend 3 they return 5 where the
threads-disabled bodies return 8. -/
theorem nothreads_equivalence_breaks_on_win32_add :
    (∀ (t : Target) (a : git_atomic),
        NoThreads.git_atomic_inc a = Threads.git_atomic_inc t a ∧
        NoThreads.git_atomic_dec a = Threads.git_atomic_dec t a) ∧
      (∀ (t : Target) (s o n : Ptr),
        NoThreads.git___compare_and_swap s o n = Threads.git___compare_and_swap t s o n) ∧
      (∀ (a : git_atomic) (d : Int),
        NoThreads.git_atomic_add a d = Threads.git_atomic_add .GNUC a d) ∧
      (∀ (a : git_atomic64) (d : Int),
        NoThreads.git_atomic64_add a d = Threads.git_atomic64_add .GNUC a d) ∧
      (NoThreads.git_atomic_add ⟨5⟩ 3).1 = 8 ∧
      (Threads.git_atomic_add .GIT_WIN32 ⟨5⟩ 3).1 = 5 ∧
      (NoThreads.git_atomic64_add ⟨5⟩ 3).1 = 8 ∧
      (Threads.git_atomic64_add .GIT_WIN32 ⟨5⟩ 3).1 = 5 := by
  refine ⟨fun t a => ⟨?_, ?_⟩, fun t s o n => ?_, fun _ _ => rfl, fun _ _ => rfl,
    by decide, by decide, by decide, by decide⟩
  · rw [threads_inc_eq]; rfl
  · rw [threads_dec_eq]; rfl
  · rw [threads_cas_eq, nothreads_cas_eq]

/-! ## Stand-ins of the threads-disabled build -/

/-- C9, as stated, fails for `git_mutex_unlock`: its expansion `(void)0` has no value, so it
does not yield the status 0 (here on a program state that is a single number, with an
argument expression of value 0). -/
theorem git_mutex_unlock_yields_no_status :
    (NoThreads.git_mutex_unlock (fun s => (NoThreads.CValue.int 0, s)) (0 : Nat)).1 ≠ NoThreads.CValue.int 0 ∧
      (NoThreads.git_mutex_unlock (fun s => (NoThreads.CValue.int 0, s)) (0 : Nat)).1 = NoThreads.CValue.void := by
  decide

/-- C9, amended: in the threads-disabled build `git_mutex_init`, `git_mutex_lock`,
`git_mutex_unlock`, every `git_cond_*` operation and `git_thread_create` leave the program
state as it was, whatever their argument expressions and whatever the entry point would do;
`git_mutex_init` and `git_mutex_lock` have the value 0, and `git_mutex_unlock` has no value
(type `void`). -/
theorem nothreads_stubs_are_noops {σ : Type} (s : σ) (x y z : NoThreads.CExpr σ) (entry : σ → σ) :
    NoThreads.git_mutex_init x s = (NoThreads.CValue.int 0, s) ∧
      NoThreads.git_mutex_lock x s = (NoThreads.CValue.int 0, s) ∧
      NoThreads.git_mutex_unlock x s = (NoThreads.CValue.void, s) ∧
      NoThreads.git_cond_init x y s = (NoThreads.CValue.void, s) ∧
      NoThreads.git_cond_free x s = (NoThreads.CValue.void, s) ∧
      NoThreads.git_cond_wait x y s = (NoThreads.CValue.void, s) ∧
      NoThreads.git_cond_signal x s = (NoThreads.CValue.void, s) ∧
      NoThreads.git_cond_broadcast x s = (NoThreads.CValue.void, s) ∧
      NoThreads.git_thread_create x y entry z s = (NoThreads.CValue.void, s) :=
  ⟨rfl, rfl, rfl, rfl, rfl, rfl, rfl, rfl, rfl⟩

/-! ## Concurrent increments -/

/-- An interleaving of `N` threads with `M` calls each consists of `N * M` calls. -/
theorem interleave_length (N M : Nat) (sched : List Nat)
    (hsched : Threads.IsInterleaving N M sched) : sched.length = N * M := by
  obtain ⟨hlt, hcount⟩ := hsched
  have hcard : ∑ i ∈ Finset.range N, (sched : Multiset Nat).count i
      = Multiset.card (sched : Multiset Nat) :=
    Multiset.sum_count_eq_card (fun i hi => Finset.mem_range.mpr (hlt i (by simpa using hi)))
  have hsum : ∑ i ∈ Finset.range N, (sched : Multiset Nat).count i = N * M := by
    have hconst : ∀ i ∈ Finset.range N, (sched : Multiset Nat).count i = M := by
      intro i hi
      rw [Multiset.coe_count]
      exact hcount i (Finset.mem_range.mp hi)
    rw [Finset.sum_congr rfl hconst, Finset.sum_const, Finset.card_range, smul_eq_mul]
  rw [← hsum, hcard]
  simp

/-- Running a schedule from a counter at `k ≥ 0` that stays below `2^31`: the counter goes up
by the number of calls and the calls get `k + 1, k + 2, ...` in their order. -/
theorem interleave_from (t : Target) (sched : List Nat) :
    ∀ (a : git_atomic) (k : Nat), a.val = (k : Int) → k + sched.length < 2147483648 →
      Threads.interleave t a sched
        = (⟨((k + sched.length : Nat) : Int)⟩,
            sched.zip ((List.range' (k + 1) sched.length).map Int.ofNat)) := by
  induction sched with
  | nil =>
    intro a k hk _
    cases a
    simp_all [Threads.interleave]
  | cons tid rest ih =>
    intro a k hk hlen
    simp only [List.length_cons] at hlen
    have hw : wrap32 (a.val + 1) = ((k + 1 : Nat) : Int) := by
      rw [hk, wrap32_eq_self] <;> push_cast <;> omega
    have hstep := ih ⟨wrap32 (a.val + 1)⟩ (k + 1) hw (by omega)
    have e : k + 1 + rest.length = k + (rest.length + 1) := by omega
    rw [hw, e] at hstep
    simp only [Threads.interleave, threads_inc_eq, hw, hstep, List.length_cons,
      List.range'_succ, List.map_cons, List.zip_cons_cons]
    rfl

/-- C10: let `N` threads make `M` calls of the threads-enabled `git_atomic_inc` each on one
counter that `git_atomic_set` initialised to 0, with `N * M` below `2^31`.  For every
interleaving of the calls the counter ends at `N * M`, and the values the calls returned
are, in the order of the calls, `1, 2, ..., N * M` (so each occurs once); the calls are
those of the schedule. -/
theorem concurrent_inc_no_lost_update (t : Target) (N M : Nat) (a : git_atomic)
    (sched : List Nat) (hrange : N * M < 2147483648)
    (hsched : Threads.IsInterleaving N M sched) :
    (Threads.interleave t (git_atomic_set a 0) sched).1.val = ((N * M : Nat) : Int) ∧
      (Threads.interleave t (git_atomic_set a 0) sched).2.map Prod.snd
        = (List.range' 1 (N * M)).map Int.ofNat ∧
      (Threads.interleave t (git_atomic_set a 0) sched).2.map Prod.fst = sched := by
  have hlen := interleave_length N M sched hsched
  have h := interleave_from t sched (git_atomic_set a 0) 0 rfl (by omega)
  rw [h]
  simp only [Nat.zero_add, hlen]
  refine ⟨trivial, ?_, ?_⟩
  · rw [← List.unzip_snd, List.unzip_zip]
    simp [hlen]
  · rw [← List.unzip_fst, List.unzip_zip]
    simp [hlen]

/-- Two threads with two calls each, scheduled as thread 0, 1, 1, 0. -/
theorem concurrent_inc_no_lost_update_witness :
    (Threads.interleave .GNUC (git_atomic_set ⟨7⟩ 0) [0, 1, 1, 0]).1.val = ((2 * 2 : Nat) : Int) ∧
      (Threads.interleave .GNUC (git_atomic_set ⟨7⟩ 0) [0, 1, 1, 0]).2.map Prod.snd
        = (List.range' 1 (2 * 2)).map Int.ofNat ∧
      (Threads.interleave .GNUC (git_atomic_set ⟨7⟩ 0) [0, 1, 1, 0]).2.map Prod.fst
        = [0, 1, 1, 0] :=
  concurrent_inc_no_lost_update .GNUC 2 2 ⟨7⟩ [0, 1, 1, 0] (by decide) (by decide)

end ThreadUtils
